import Mathlib

/-!
Shallow embedding of the `cli-rain` digital-rain simulator
(`src/main.rs`) and verification of its specification claims.

The Rust program keeps a world (`RainMap`) of falling glyph particles,
advances them each tick, spawns new ones at the top row, drops the
out-of-bounds ones, and rasterizes the survivors onto a character grid
with a depth-resolution policy.

Machine integers `i32`/`i16`/`usize` are modelled as `Int`/`Nat`; the one
place the source relies on machine arithmetic semantics is the
`saturating_add` on the `i16` depth component, modelled explicitly by
clamping to the `i16` range.  Randomness (the `rand` crate) is modelled
by passing the draws as explicit oracle parameters: a uniform draw in
`[0,1)` becomes a rational parameter, `random_range` over an inclusive
integer range becomes an arbitrary natural reduced modulo the size of
the range.
-/

/-- `Pos` from the source: integer coordinates, `x`/`y` are `i32`,
`z` (depth) is `i16`. -/
structure Pos where
  x : Int
  y : Int
  z : Int
deriving DecidableEq, Repr

/-- `Velocity` from the source: per-axis integer deltas (`x y : i32`,
`z : i16`). -/
structure Velocity where
  x : Int
  y : Int
  z : Int
deriving DecidableEq, Repr

/-- `RainEntity` from the source: an immutable glyph paired with a
velocity. -/
structure RainEntity where
  c : Char
  velocity : Velocity
deriving DecidableEq, Repr

/-- `RainMap` from the source: the unordered particle collection plus the
grid bounds. -/
structure RainMap where
  entities : List (Pos × RainEntity)
  height : Nat
  width : Nat
deriving DecidableEq, Repr

/-- The recognized command-line options (`Opts` in the source). -/
structure Opts where
  no_color : Bool
  spawn_rate : Nat
  update_rate : Nat
deriving DecidableEq, Repr

/-- `rand.random_range(lo..=hi)` on integers, modelled uniformly: the
oracle value `k` is reduced modulo the size of the inclusive range. -/
def randomRangeInt (lo hi : Int) (k : Nat) : Int :=
  lo + (k % (hi + 1 - lo).toNat)

/-- `rand.random_range(0..n)` on usize, modelled the same way. -/
def randomRangeNat (n k : Nat) : Nat := k % n

/-- `rand.random_bool(p)`: a Bernoulli trial with probability `p`,
modelled as comparing a uniform draw `u ∈ [0,1)` against `p`. -/
def randomBool (p u : ℚ) : Bool := decide (u < p)

/-- The random draws consumed by one `RainEntity::new` call: the glyph
index draw and the three `Velocity::new` range draws. -/
structure EntityDraws where
  ck : Nat
  kx : Nat
  ky : Nat
  kz : Nat
deriving DecidableEq, Repr

/-- `Velocity::new`: each component is drawn from its inclusive range and
negated (`.neg()`), exactly as in the source
(`X_RANGE = -3..=3`, `Y_RANGE = -3..=-1`, `Z_RANGE = -3..=3`). -/
def Velocity.new (d : EntityDraws) : Velocity :=
  { x := -(randomRangeInt (-3) 3 d.kx)
    y := -(randomRangeInt (-3) (-1) d.ky)
    z := -(randomRangeInt (-3) 3 d.kz) }

/-- `RainEntity::AVAILABLE_CHARS`, the fixed glyph palette. -/
def RainEntity.AVAILABLE_CHARS : List Char :=
  ['\\', '/', '|', '~', '(', ')', '[', ']', '*', '#', '@']

/-- `RainEntity::new`: a glyph at a random palette index and a fresh
random velocity. -/
def RainEntity.new (d : EntityDraws) : RainEntity :=
  { c := RainEntity.AVAILABLE_CHARS.getD
      (randomRangeNat RainEntity.AVAILABLE_CHARS.length d.ck) ' '
    velocity := Velocity.new d }

/-- `Pos::new`. -/
def Pos.new (x y z : Int) : Pos := { x := x, y := y, z := z }

/-- `i16::saturating_add` modelled on `Int`: the sum clamped to the
`i16` range `[-32768, 32767]`. -/
def i16SatAdd (a b : Int) : Int :=
  max (-32768) (min 32767 (a + b))

/-- `Pos::shift`: add the velocity componentwise; the `z` (depth)
addition saturates (`saturating_add` on `i16`). -/
def Pos.shift (p : Pos) (vel : Velocity) : Pos :=
  { x := p.x + vel.x
    y := p.y + vel.y
    z := i16SatAdd p.z vel.z }

/-- `RainMap::new`: fails when either dimension is zero, otherwise
returns an empty world. -/
def RainMap.new (width height : Nat) : Except String RainMap :=
  if width = 0 ∨ height = 0 then
    .error "width and height must be greater than 0"
  else
    .ok { entities := [], width := width, height := height }

/-- `RainMap::contains`: strict bounds on both ends below,
`pos.x > 0 && pos.x < width && pos.y > 0 && pos.y < height`. -/
def RainMap.contains (m : RainMap) (pos : Pos) : Bool :=
  pos.x > 0 && pos.x < (m.width : Int) && pos.y > 0 && pos.y < (m.height : Int)

/-- `RainMap::hydrate`: for every column, a Bernoulli trial with
probability `spawn_rate / 100`; on success push a particle at
`(x, 0, 0)` with a fresh random entity.  `u` gives the per-column
uniform draws, `draws` the per-column entity randomness. -/
def RainMap.hydrate (m : RainMap) (opts : Opts) (u : Nat → ℚ)
    (draws : Nat → EntityDraws) : RainMap :=
  { m with entities := m.entities ++
      (List.range m.width).filterMap (fun x =>
        if randomBool ((opts.spawn_rate : ℚ) / 100) (u x) then
          some (Pos.new x 0 0, RainEntity.new (draws x))
        else none) }

/-- `RainMap::resize`: fails (leaving the receiver untouched) when a
dimension is zero; otherwise installs the new bounds and keeps exactly
the particles the resized map `contains`.  The mutated receiver is
returned as the second component. -/
def RainMap.resize (m : RainMap) (width height : Nat) :
    Except String Unit × RainMap :=
  if width = 0 ∨ height = 0 then
    (.error "width and height must be greater than 0", m)
  else
    let m' : RainMap := { m with width := width, height := height }
    (.ok (), { m' with entities := m'.entities.filter (fun pe => m'.contains pe.1) })

/-- `RainMap::update`: shift every particle by its velocity, keep the
ones the map still `contains`. -/
def RainMap.update (m : RainMap) : RainMap :=
  { m with entities := m.entities.filterMap (fun pe =>
      if m.contains (pe.1.shift pe.2.velocity) then
        some (pe.1.shift pe.2.velocity, pe.2)
      else none) }

/-- The three foreground colors `render` uses. -/
inductive RainColor where
  | darkBlue
  | blue
  | cyan
deriving DecidableEq, Repr

/-- The crossterm 256-color code of each palette color. -/
def RainColor.ansiCode : RainColor → Nat
  | .darkBlue => 4
  | .blue => 12
  | .cyan => 14

/-- The depth-to-color match in `render`: negative depths are dark blue,
zero is blue, positive is cyan. -/
def zColor (z : Int) : RainColor :=
  if z < 0 then .darkBlue else if z = 0 then .blue else .cyan

/-- Brightness ordering of the three palette colors (dark blue is the
darkest, cyan the brightest); the spec-side notion of color intensity
used to compare against the source's depth-to-color mapping. -/
def RainColor.intensity : RainColor → Nat
  | .darkBlue => 0
  | .blue => 1
  | .cyan => 2

/-- A glyph wrapped in a foreground color escape, as crossterm's
styled-content `Display` emits it. -/
def styledGlyph (col : RainColor) (s : String) : String :=
  "\x1b[38;5;" ++ toString col.ansiCode ++ "m" ++ s ++ "\x1b[0m"

/-- One pass of the rasterizing loop in `render`: write the particle into
its cell unless the stored depth is strictly greater. -/
def rasterStep (g : Nat → Nat → Option (Int × Char)) (p : Pos)
    (e : RainEntity) : Nat → Nat → Option (Int × Char) :=
  fun y x =>
    if y = p.y.toNat ∧ x = p.x.toNat then
      match g y x with
      | none => some (p.z, e.c)
      | some (z, c) => if z > p.z then some (z, c) else some (p.z, e.c)
    else g y x

/-- The cell grid `render` builds: fold the contained particles over an
all-empty grid. -/
def RainMap.rasterize (m : RainMap) : Nat → Nat → Option (Int × Char) :=
  (m.entities.filter (fun pe => m.contains pe.1)).foldl
    (fun g pe => rasterStep g pe.1 pe.2) (fun _ _ => none)

/-- Serialization of one cell: empty cells become a single space,
occupied cells the glyph, color-wrapped unless `no_color`. -/
def cellStr (opts : Opts) (cell : Option (Int × Char)) : String :=
  match cell with
  | none => " "
  | some (z, c) =>
      if !opts.no_color then styledGlyph (zColor z) (String.singleton c)
      else String.singleton c

/-- Serialization of one grid row, newline-terminated. -/
def renderRow (m : RainMap) (opts : Opts)
    (g : Nat → Nat → Option (Int × Char)) (y : Nat) : String :=
  String.join ((List.range m.width).map (fun x => cellStr opts (g y x))) ++ "\n"

/-- `RainMap::render`: rasterize, then serialize row by row. -/
def RainMap.render (m : RainMap) (opts : Opts) : String :=
  String.join ((List.range m.height).map (renderRow m opts m.rasterize))

/-! ## Helper lemmas -/

/-- A `filterMap` whose guard holds on every element of the list is a
`map`. -/
theorem filterMap_if_all {α β : Type} (l : List α) (c : α → Bool) (f : α → β)
    (h : ∀ x ∈ l, c x = true) :
    l.filterMap (fun x => if c x then some (f x) else none) = l.map f := by
  induction l with
  | nil => rfl
  | cons hd tl ih =>
      have hhd : c hd = true := h hd (List.mem_cons_self hd tl)
      simp only [List.filterMap_cons, List.map_cons, hhd, if_pos]
      exact congrArg _ (ih fun x hx => h x (List.mem_cons_of_mem hd hx))

/-- `getD` at an index below the length returns an element of the
list. -/
theorem getD_mem_of_lt {α : Type} (l : List α) (n : Nat) (d : α)
    (h : n < l.length) : l.getD n d ∈ l := by
  rw [List.getD_eq_getElem l d h]
  exact List.getElem_mem h

/-! ## C5 -/

/-- C5: world creation with a zero dimension fails with the
invalid-dimension error; creation with both dimensions nonzero returns
the empty world; resize with a zero dimension fails with the same error
and returns the receiver completely unchanged. -/
theorem C5_zero_dimension_errors (m : RainMap) (w h : Nat) :
    (w = 0 ∨ h = 0 →
      RainMap.new w h = .error "width and height must be greater than 0") ∧
    (w ≠ 0 → h ≠ 0 →
      RainMap.new w h = .ok { entities := [], width := w, height := h }) ∧
    (w = 0 ∨ h = 0 →
      m.resize w h = (.error "width and height must be greater than 0", m)) := by
  refine ⟨fun hz => ?_, fun hw hh => ?_, fun hz => ?_⟩
  · simp [RainMap.new, hz]
  · simp [RainMap.new, hw, hh]
  · simp [RainMap.resize, hz]

/-- C5 witness: `create(0,5)` fails, `create(5,5)` succeeds with an empty
world, and `resize(0,5)` on that world fails leaving it unchanged. -/
theorem C5_zero_dimension_errors_witness :
    RainMap.new 0 5 = .error "width and height must be greater than 0" ∧
    RainMap.new 5 5 = .ok { entities := [], width := 5, height := 5 } ∧
    RainMap.resize { entities := [], width := 5, height := 5 } 0 5 =
      (.error "width and height must be greater than 0",
        { entities := [], width := 5, height := 5 }) :=
  ⟨(C5_zero_dimension_errors { entities := [], width := 5, height := 5 } 0 5).1
      (Or.inl rfl),
    (C5_zero_dimension_errors { entities := [], width := 5, height := 5 } 5 5).2.1
      (by decide) (by decide),
    (C5_zero_dimension_errors { entities := [], width := 5, height := 5 } 0 5).2.2
      (Or.inl rfl)⟩

/-! ## C7 -/

/-- C7: every velocity produced by `Velocity::new` has a vertical
component between 1 and 3, and `Pos::shift` adds it to the row, so after
the position update the row index exceeds the old one by exactly the
magnitude of the vertical velocity component and never fails to
increase. -/
theorem C7_row_strictly_increases (d : EntityDraws) (p : Pos) :
    1 ≤ (Velocity.new d).y ∧ (Velocity.new d).y ≤ 3 ∧
    (p.shift (Velocity.new d)).y = p.y + |(Velocity.new d).y| ∧
    p.y < (p.shift (Velocity.new d)).y := by
  have ht : ((-1 : Int) + 1 - -3).toNat = 3 := by decide
  have hmod : d.ky % 3 < 3 := Nat.mod_lt _ (by decide)
  have hy : (Velocity.new d).y = -((-3 : Int) + (d.ky % 3 : Nat)) := by
    simp [Velocity.new, randomRangeInt, ht]
  have h1 : 1 ≤ (Velocity.new d).y := by rw [hy]; omega
  have h3 : (Velocity.new d).y ≤ 3 := by rw [hy]; omega
  refine ⟨h1, h3, ?_, ?_⟩
  · have habs : |(Velocity.new d).y| = (Velocity.new d).y :=
      abs_of_pos (lt_of_lt_of_le Int.zero_lt_one h1)
    rw [habs]; rfl
  · show p.y < p.y + (Velocity.new d).y
    omega

/-! ## C4 -/

/-- C4 as stated is false: the depths 1 < 2 are both mapped to cyan, so
the derived intensity for the smaller depth is not strictly less. -/
theorem C4_counterexample :
    (1 : Int) < 2 ∧ ¬ (zColor 1).intensity < (zColor 2).intensity := by decide

/-- C4 amended: the depth-to-color mapping of `render` is a deterministic
function of the depth alone and is monotonically non-decreasing (not
strictly increasing): larger depths never map to a darker color. -/
theorem C4_color_monotone (d1 d2 : Int) (h : d1 ≤ d2) :
    (zColor d1).intensity ≤ (zColor d2).intensity := by
  unfold zColor
  split_ifs <;> simp_all [RainColor.intensity] <;> omega

/-- C4 witness: the theorem applied at depths −1 ≤ 1. -/
theorem C4_color_monotone_witness :
    (-1 : Int) ≤ 1 ∧ (zColor (-1)).intensity ≤ (zColor 1).intensity :=
  ⟨by decide, C4_color_monotone (-1) 1 (by decide)⟩

/-! ## C10 -/

/-- C10: every particle appended by `hydrate` sits at the column of its
Bernoulli trial, row 0 and depth exactly 0, with the freshly drawn
entity; depth is never randomized at spawn time. -/
theorem C10_spawn_depth_zero (m : RainMap) (opts : Opts) (u : Nat → ℚ)
    (draws : Nat → EntityDraws) (pe : Pos × RainEntity)
    (hmem : pe ∈ (m.hydrate opts u draws).entities.drop m.entities.length) :
    ∃ x < m.width, pe.1 = Pos.new (x : Int) 0 0 ∧
      randomBool ((opts.spawn_rate : ℚ) / 100) (u x) = true ∧
      pe.2 = RainEntity.new (draws x) := by
  have hmem' : pe ∈ (List.range m.width).filterMap (fun x =>
      if randomBool ((opts.spawn_rate : ℚ) / 100) (u x) then
        some (Pos.new (x : Int) 0 0, RainEntity.new (draws x))
      else none) := by
    simpa [RainMap.hydrate, List.drop_left] using hmem
  rcases List.mem_filterMap.mp hmem' with ⟨x, hx, hfx⟩
  by_cases hb : randomBool ((opts.spawn_rate : ℚ) / 100) (u x) = true
  · rw [if_pos hb] at hfx
    exact ⟨x, List.mem_range.mp hx, by rw [← Option.some_inj.mp hfx],
      hb, by rw [← Option.some_inj.mp hfx]⟩
  · rw [if_neg hb] at hfx
    exact absurd hfx (by simp)

/-- C10 witness: in a 1-wide world with a certainly-successful trial, the
single spawned particle is at column 0, row 0, depth 0. -/
theorem C10_spawn_depth_zero_witness :
    ∃ x : Nat, x < 1 ∧
      ((Pos.new 0 0 0, RainEntity.new { ck := 0, kx := 0, ky := 0, kz := 0 }).1 =
        Pos.new (x : Int) 0 0 ∧
      randomBool ((({ no_color := false, spawn_rate := 100, update_rate := 50 :
          Opts }).spawn_rate : ℚ) / 100) ((fun _ => (0 : ℚ)) x) = true ∧
      (Pos.new 0 0 0, RainEntity.new { ck := 0, kx := 0, ky := 0, kz := 0 }).2 =
        RainEntity.new ((fun _ => { ck := 0, kx := 0, ky := 0, kz := 0 } :
          Nat → EntityDraws) x)) :=
  C10_spawn_depth_zero { entities := [], height := 1, width := 1 }
    { no_color := false, spawn_rate := 100, update_rate := 50 }
    (fun _ => 0) (fun _ => { ck := 0, kx := 0, ky := 0, kz := 0 })
    (Pos.new 0 0 0, RainEntity.new { ck := 0, kx := 0, ky := 0, kz := 0 })
    (by
      simp only [RainMap.hydrate, randomBool, List.length_nil, List.drop_zero,
        List.nil_append, List.range_succ, List.range_zero, List.filterMap_append,
        List.filterMap_cons, List.filterMap_nil]
      norm_num)

/-! ## C1 -/

/-- C1 as stated is false: in a 5×5 world a particle is shifted to
position (0, 2), which satisfies 0 ≤ x < 5 and 0 ≤ y < 5, yet `update`
removes it, because `contains` demands strictly positive coordinates. -/
theorem C1_counterexample :
    (RainMap.update
      { entities := [({ x := 3, y := 1, z := 0 },
          { c := '*', velocity := { x := -3, y := 1, z := 0 } })],
        height := 5, width := 5 }).entities = [] ∧
    (0 : Int) ≤ (Pos.shift { x := 3, y := 1, z := 0 } { x := -3, y := 1, z := 0 }).x ∧
    (Pos.shift { x := 3, y := 1, z := 0 } { x := -3, y := 1, z := 0 }).x < 5 ∧
    (0 : Int) ≤ (Pos.shift { x := 3, y := 1, z := 0 } { x := -3, y := 1, z := 0 }).y ∧
    (Pos.shift { x := 3, y := 1, z := 0 } { x := -3, y := 1, z := 0 }).y < 5 := by
  decide

/-- C1 amended: after `update` every remaining particle satisfies the
strict in-bounds invariant 0 < x < width and 0 < y < height, and the
surviving particles are exactly the velocity-shifted originals whose
shifted position the map `contains` — so a particle whose shifted
position satisfies the strict invariant is never removed. -/
theorem C1_update_inbounds (m : RainMap) :
    (∀ pe ∈ m.update.entities,
      0 < pe.1.x ∧ pe.1.x < (m.width : Int) ∧
      0 < pe.1.y ∧ pe.1.y < (m.height : Int)) ∧
    m.update.entities =
      (m.entities.map (fun pe => (pe.1.shift pe.2.velocity, pe.2))).filter
        (fun pe => m.contains pe.1) := by
  constructor
  · intro pe hpe
    rcases List.mem_filterMap.mp hpe with ⟨q, _, hfq⟩
    by_cases hc : m.contains (q.1.shift q.2.velocity) = true
    · rw [if_pos hc] at hfq
      have hpe2 : (q.1.shift q.2.velocity, q.2) = pe := Option.some_inj.mp hfq
      subst hpe2
      simp only [RainMap.contains, Bool.and_eq_true, decide_eq_true_eq] at hc
      exact ⟨hc.1.1.1, hc.1.1.2, hc.1.2, hc.2⟩
    · rw [if_neg hc] at hfq; cases hfq
  · show m.entities.filterMap _ = _
    induction m.entities with
    | nil => rfl
    | cons hd tl ih =>
      simp only [List.filterMap_cons, List.map_cons, List.filter_cons]
      by_cases hc : m.contains (hd.1.shift hd.2.velocity) = true
      · simp only [hc, if_pos, ih]
      · simp only [hc, Bool.false_eq_true, if_neg, ih]
        rw [if_neg]
        · rfl
        · simp [hc]

/-- C1 witness: in a 5×5 world the particle shifted to (1, 2) survives
`update` and the theorem yields its strict bounds. -/
theorem C1_update_inbounds_witness :
    0 < ({ x := 1, y := 2, z := 0 } : Pos).x ∧
    ({ x := 1, y := 2, z := 0 } : Pos).x < ((5 : Nat) : Int) ∧
    0 < ({ x := 1, y := 2, z := 0 } : Pos).y ∧
    ({ x := 1, y := 2, z := 0 } : Pos).y < ((5 : Nat) : Int) :=
  (C1_update_inbounds
    { entities := [({ x := 1, y := 1, z := 0 },
        { c := '*', velocity := { x := 0, y := 1, z := 0 } })],
      height := 5, width := 5 }).1
    ({ x := 1, y := 2, z := 0 },
      { c := '*', velocity := { x := 0, y := 1, z := 0 } })
    (by decide)

/-! ## C3 -/

/-- C3 as stated is false: resizing a 5×5 world that holds a particle at
(0, 0) — a position satisfying the claimed new bounds 0 ≤ x < 4 and
0 ≤ y < 4 — down to 4×4 removes that particle. -/
theorem C3_counterexample :
    (RainMap.resize
      { entities := [({ x := 0, y := 0, z := 0 },
          { c := '*', velocity := { x := 0, y := 1, z := 0 } })],
        height := 5, width := 5 } 4 4).2.entities = [] ∧
    (0 : Int) ≤ ({ x := 0, y := 0, z := 0 } : Pos).x ∧
    ({ x := 0, y := 0, z := 0 } : Pos).x < 4 ∧
    (0 : Int) ≤ ({ x := 0, y := 0, z := 0 } : Pos).y ∧
    ({ x := 0, y := 0, z := 0 } : Pos).y < 4 := by
  decide

/-- C3 amended: a resize to nonzero bounds installs the new bounds and
keeps exactly the particles whose position satisfies the strict bounds
0 < x < new_width and 0 < y < new_height, each surviving particle kept
verbatim (position, velocity and glyph unchanged). -/
theorem C3_resize_filters (m : RainMap) (w h : Nat)
    (hw : w ≠ 0) (hh : h ≠ 0) :
    (m.resize w h).2.width = w ∧ (m.resize w h).2.height = h ∧
    (m.resize w h).2.entities = m.entities.filter (fun pe =>
      pe.1.x > 0 && pe.1.x < (w : Int) && pe.1.y > 0 && pe.1.y < (h : Int)) := by
  refine ⟨?_, ?_, ?_⟩ <;>
    simp [RainMap.resize, hw, hh, RainMap.contains]

/-- C3 witness: resizing a 5×5 world with particles at (1,1) and (4,4)
down to 4×4 keeps exactly the (1,1) particle unchanged. -/
theorem C3_resize_filters_witness :
    (RainMap.resize
      { entities := [({ x := 1, y := 1, z := 0 },
          { c := '*', velocity := { x := 0, y := 1, z := 0 } }),
        ({ x := 4, y := 4, z := 2 },
          { c := '#', velocity := { x := 1, y := 2, z := 0 } })],
        height := 5, width := 5 } 4 4).2.width = 4 ∧
    (RainMap.resize
      { entities := [({ x := 1, y := 1, z := 0 },
          { c := '*', velocity := { x := 0, y := 1, z := 0 } }),
        ({ x := 4, y := 4, z := 2 },
          { c := '#', velocity := { x := 1, y := 2, z := 0 } })],
        height := 5, width := 5 } 4 4).2.height = 4 ∧
    (RainMap.resize
      { entities := [({ x := 1, y := 1, z := 0 },
          { c := '*', velocity := { x := 0, y := 1, z := 0 } }),
        ({ x := 4, y := 4, z := 2 },
          { c := '#', velocity := { x := 1, y := 2, z := 0 } })],
        height := 5, width := 5 } 4 4).2.entities =
      [({ x := 1, y := 1, z := 0 },
          { c := '*', velocity := { x := 0, y := 1, z := 0 } }),
        ({ x := 4, y := 4, z := 2 },
          { c := '#', velocity := { x := 1, y := 2, z := 0 } })].filter (fun pe =>
        pe.1.x > 0 && pe.1.x < ((4 : Nat) : Int) &&
        pe.1.y > 0 && pe.1.y < ((4 : Nat) : Int)) :=
  C3_resize_filters
    { entities := [({ x := 1, y := 1, z := 0 },
        { c := '*', velocity := { x := 0, y := 1, z := 0 } }),
      ({ x := 4, y := 4, z := 2 },
        { c := '#', velocity := { x := 1, y := 2, z := 0 } })],
      height := 5, width := 5 } 4 4 (by decide) (by decide)

/-! ## C8 -/

/-- C8: `Pos::shift` adds the velocity to the position exactly
componentwise except that the depth addition saturates at the i16 range
limits, and `update` carries every surviving particle's entity (glyph
and velocity) over unchanged, its new position being exactly the shift
of its old one. -/
theorem C8_shift_exact_entity_immutable (m : RainMap)
    (pe : Pos × RainEntity) (hmem : pe ∈ m.update.entities) :
    (∀ (p : Pos) (v : Velocity),
      (p.shift v).x = p.x + v.x ∧ (p.shift v).y = p.y + v.y ∧
      (p.shift v).z = max (-32768) (min 32767 (p.z + v.z))) ∧
    ∃ q ∈ m.entities, pe.2 = q.2 ∧ pe.1 = q.1.shift q.2.velocity := by
  refine ⟨fun p v => ⟨rfl, rfl, rfl⟩, ?_⟩
  rcases List.mem_filterMap.mp hmem with ⟨q, hq, hfq⟩
  by_cases hc : m.contains (q.1.shift q.2.velocity) = true
  · rw [if_pos hc] at hfq
    have hpe2 : (q.1.shift q.2.velocity, q.2) = pe := Option.some_inj.mp hfq
    exact ⟨q, hq, by rw [← hpe2], by rw [← hpe2]⟩
  · rw [if_neg hc] at hfq; cases hfq

/-- C8 witness: the theorem applied to the surviving particle of a
one-particle world. -/
theorem C8_shift_exact_entity_immutable_witness :
    (∀ (p : Pos) (v : Velocity),
      (p.shift v).x = p.x + v.x ∧ (p.shift v).y = p.y + v.y ∧
      (p.shift v).z = max (-32768) (min 32767 (p.z + v.z))) ∧
    ∃ q ∈ ([({ x := 2, y := 1, z := 0 },
        { c := '@', velocity := { x := -1, y := 2, z := 1 } })] :
          List (Pos × RainEntity)),
      (({ x := 1, y := 3, z := 1 } : Pos),
        ({ c := '@', velocity := { x := -1, y := 2, z := 1 } } : RainEntity)).2 = q.2 ∧
      (({ x := 1, y := 3, z := 1 } : Pos),
        ({ c := '@', velocity := { x := -1, y := 2, z := 1 } } : RainEntity)).1 =
        q.1.shift q.2.velocity :=
  C8_shift_exact_entity_immutable
    { entities := [({ x := 2, y := 1, z := 0 },
        { c := '@', velocity := { x := -1, y := 2, z := 1 } })],
      height := 5, width := 5 }
    ({ x := 1, y := 3, z := 1 },
      { c := '@', velocity := { x := -1, y := 2, z := 1 } })
    (by decide)

/-! ## C6 -/

/-- C6: with spawn probability 100 every column's Bernoulli trial
succeeds, so one `hydrate` call appends exactly one new particle per
column of [0, width), each at row 0 and carrying a glyph from the fixed
palette, while the existing particles are left untouched. -/
theorem C6_hydrate_spawns_every_column (m : RainMap) (opts : Opts)
    (u : Nat → ℚ) (draws : Nat → EntityDraws)
    (hp : opts.spawn_rate = 100) (hu : ∀ i, u i < 1) :
    (m.hydrate opts u draws).entities =
      m.entities ++ (List.range m.width).map
        (fun (x : Nat) => (Pos.new (x : Int) 0 0, RainEntity.new (draws x))) ∧
    (m.hydrate opts u draws).entities.length = m.entities.length + m.width ∧
    ∀ x : Nat, (RainEntity.new (draws x)).c ∈ RainEntity.AVAILABLE_CHARS := by
  have hone : ((opts.spawn_rate : ℚ) / 100) = 1 := by rw [hp]; norm_num
  have hb : ∀ x ∈ List.range m.width,
      randomBool ((opts.spawn_rate : ℚ) / 100) (u x) = true := by
    intro x _
    simp [randomBool, hone, hu x]
  have hmain : (m.hydrate opts u draws).entities =
      m.entities ++ (List.range m.width).map
        (fun (x : Nat) => (Pos.new (x : Int) 0 0, RainEntity.new (draws x))) := by
    exact congrArg (m.entities ++ ·)
      (filterMap_if_all (List.range m.width)
        (fun x => randomBool ((opts.spawn_rate : ℚ) / 100) (u x))
        (fun (x : Nat) => (Pos.new (x : Int) 0 0, RainEntity.new (draws x))) hb)
  refine ⟨hmain, ?_, ?_⟩
  · rw [hmain]; simp
  · intro x
    exact getD_mem_of_lt _ _ _
      (Nat.mod_lt _ (by decide : 0 < RainEntity.AVAILABLE_CHARS.length))

/-- C6 witness: a 2-wide world hydrated at probability 100 with the
all-zeros draw stream gains exactly one particle per column. -/
theorem C6_hydrate_spawns_every_column_witness :
    (RainMap.hydrate { entities := [], height := 3, width := 2 }
        { no_color := false, spawn_rate := 100, update_rate := 50 }
        (fun _ => 0) (fun _ => { ck := 0, kx := 0, ky := 0, kz := 0 })).entities =
      ([] : List (Pos × RainEntity)) ++ (List.range 2).map
        (fun (x : Nat) => (Pos.new (x : Int) 0 0,
          RainEntity.new ((fun _ => { ck := 0, kx := 0, ky := 0, kz := 0 } :
            Nat → EntityDraws) x))) ∧
    (RainMap.hydrate { entities := [], height := 3, width := 2 }
        { no_color := false, spawn_rate := 100, update_rate := 50 }
        (fun _ => 0) (fun _ => { ck := 0, kx := 0, ky := 0, kz := 0 })).entities.length =
      ([] : List (Pos × RainEntity)).length + 2 ∧
    ∀ x : Nat,
      (RainEntity.new ((fun _ => { ck := 0, kx := 0, ky := 0, kz := 0 } :
        Nat → EntityDraws) x)).c ∈ RainEntity.AVAILABLE_CHARS :=
  C6_hydrate_spawns_every_column { entities := [], height := 3, width := 2 }
    { no_color := false, spawn_rate := 100, update_rate := 50 }
    (fun _ => 0) (fun _ => { ck := 0, kx := 0, ky := 0, kz := 0 })
    rfl (fun _ => by norm_num)

/-! ## C9 -/

/-- Folding `rasterStep` over contained particles never touches row 0 or
column 0 of the grid, because `contains` forces strictly positive
coordinates. -/
theorem raster_fold_blank (m : RainMap) (l : List (Pos × RainEntity))
    (hl : ∀ pe ∈ l, m.contains pe.1 = true)
    (g : Nat → Nat → Option (Int × Char))
    (hrow : ∀ x, g 0 x = none) (hcol : ∀ y, g y 0 = none) :
    (∀ x, (l.foldl (fun acc pe => rasterStep acc pe.1 pe.2) g) 0 x = none) ∧
    (∀ y, (l.foldl (fun acc pe => rasterStep acc pe.1 pe.2) g) y 0 = none) := by
  induction l generalizing g with
  | nil => exact ⟨hrow, hcol⟩
  | cons hd tl ih =>
    have hc := hl hd (List.mem_cons_self hd tl)
    simp only [RainMap.contains, Bool.and_eq_true, decide_eq_true_eq] at hc
    have hyn : hd.1.y.toNat ≠ 0 := by omega
    have hxn : hd.1.x.toNat ≠ 0 := by omega
    refine ih (fun pe hpe => hl pe (List.mem_cons_of_mem hd hpe)) _ ?_ ?_
    · intro x
      show rasterStep g hd.1 hd.2 0 x = none
      unfold rasterStep
      rw [if_neg]
      · exact hrow x
      · rintro ⟨h1, -⟩; exact hyn h1.symm
    · intro y
      show rasterStep g hd.1 hd.2 y 0 = none
      unfold rasterStep
      rw [if_neg]
      · exact hcol y
      · rintro ⟨-, h2⟩; exact hxn h2.symm

/-- C9: in every frame, every cell of the top row (row 0) and of the
leftmost column (column 0) is empty in the rasterized grid and is
serialized as a single blank space — only particles with x ≥ 1 and y ≥ 1
are drawn, so a particle spawned at row 0 is invisible in the frame of
the tick it spawned. -/
theorem C9_top_row_left_column_blank (m : RainMap) (opts : Opts) :
    (∀ x, m.rasterize 0 x = none) ∧
    (∀ y, m.rasterize y 0 = none) ∧
    (∀ x, cellStr opts (m.rasterize 0 x) = " ") ∧
    (∀ y, cellStr opts (m.rasterize y 0) = " ") := by
  have h := raster_fold_blank m
    (m.entities.filter (fun pe => m.contains pe.1))
    (fun pe hpe => (List.mem_filter.mp hpe).2)
    (fun _ _ => none) (fun _ => rfl) (fun _ => rfl)
  exact ⟨h.1, h.2, fun x => by rw [show m.rasterize 0 x = none from h.1 x]; rfl,
    fun y => by rw [show m.rasterize y 0 = none from h.2 y]; rfl⟩

/-! ## C2 -/

/-- Evaluating `rasterStep` at the cell its particle maps to. -/
theorem rasterStep_same (g : Nat → Nat → Option (Int × Char)) (p q : Pos)
    (e : RainEntity) (hx : q.x = p.x) (hy : q.y = p.y) :
    rasterStep g q e p.y.toNat p.x.toNat =
      match g p.y.toNat p.x.toNat with
      | none => some (q.z, e.c)
      | some (z, c) => if z > q.z then some (z, c) else some (q.z, e.c) := by
  unfold rasterStep
  rw [hx, hy, if_pos ⟨rfl, rfl⟩]

/-- C2 as stated is false: two particles with equal depth mapped to the
same cell do not keep the first-seen entry — the later-processed
particle overwrites it, so the cell shows the second glyph. -/
theorem C2_counterexample :
    RainMap.rasterize
      { entities := [({ x := 1, y := 1, z := 0 },
          { c := '/', velocity := { x := 0, y := 1, z := 0 } }),
        ({ x := 1, y := 1, z := 0 },
          { c := '*', velocity := { x := 0, y := 1, z := 0 } })],
        height := 3, width := 3 } 1 1 = some (0, '*') ∧
    RainMap.rasterize
      { entities := [({ x := 1, y := 1, z := 0 },
          { c := '/', velocity := { x := 0, y := 1, z := 0 } }),
        ({ x := 1, y := 1, z := 0 },
          { c := '*', velocity := { x := 0, y := 1, z := 0 } })],
        height := 3, width := 3 } 1 1 ≠ some (0, '/') := by
  constructor
  · rfl
  · intro h
    exact absurd (Option.some_inj.mp h) (by decide)

/-- C2 amended: when two contained particles map to the same cell, the
one with strictly greater depth wins in either processing order, but on
a depth tie the later-processed particle overwrites the stored entry
(the first-seen entry is not kept). -/
theorem C2_depth_resolution (w h : Nat) (p1 p2 : Pos) (e1 e2 : RainEntity)
    (hx : p2.x = p1.x) (hy : p2.y = p1.y)
    (hc1 : RainMap.contains
      { entities := [(p1, e1), (p2, e2)], height := h, width := w } p1 = true) :
    (RainMap.rasterize { entities := [(p1, e1), (p2, e2)], height := h, width := w }
        p1.y.toNat p1.x.toNat =
      if p1.z > p2.z then some (p1.z, e1.c) else some (p2.z, e2.c)) ∧
    (RainMap.rasterize { entities := [(p2, e2), (p1, e1)], height := h, width := w }
        p1.y.toNat p1.x.toNat =
      if p2.z > p1.z then some (p2.z, e2.c) else some (p1.z, e1.c)) ∧
    (p1.z > p2.z →
      RainMap.rasterize { entities := [(p1, e1), (p2, e2)], height := h, width := w }
          p1.y.toNat p1.x.toNat = some (p1.z, e1.c) ∧
      RainMap.rasterize { entities := [(p2, e2), (p1, e1)], height := h, width := w }
          p1.y.toNat p1.x.toNat = some (p1.z, e1.c)) ∧
    (p1.z = p2.z →
      RainMap.rasterize { entities := [(p1, e1), (p2, e2)], height := h, width := w }
          p1.y.toNat p1.x.toNat = some (p2.z, e2.c)) := by
  have hc2 : RainMap.contains
      { entities := [(p1, e1), (p2, e2)], height := h, width := w } p2 = true := by
    simp only [RainMap.contains] at hc1 ⊢
    rw [hx, hy]
    exact hc1
  have hA : RainMap.rasterize
      { entities := [(p1, e1), (p2, e2)], height := h, width := w }
        p1.y.toNat p1.x.toNat =
      if p1.z > p2.z then some (p1.z, e1.c) else some (p2.z, e2.c) := by
    show (List.filter _ [(p1, e1), (p2, e2)]).foldl
        (fun g pe => rasterStep g pe.1 pe.2) (fun _ _ => none)
        p1.y.toNat p1.x.toNat = _
    rw [show List.filter (fun pe => RainMap.contains
        { entities := [(p1, e1), (p2, e2)], height := h, width := w } pe.1)
        [(p1, e1), (p2, e2)] = [(p1, e1), (p2, e2)] by
      simp [List.filter_cons, hc1, hc2]]
    simp only [List.foldl_cons, List.foldl_nil]
    rw [rasterStep_same _ p1 p2 e2 hx hy, rasterStep_same _ p1 p1 e1 rfl rfl]
  have hB : RainMap.rasterize
      { entities := [(p2, e2), (p1, e1)], height := h, width := w }
        p1.y.toNat p1.x.toNat =
      if p2.z > p1.z then some (p2.z, e2.c) else some (p1.z, e1.c) := by
    show (List.filter _ [(p2, e2), (p1, e1)]).foldl
        (fun g pe => rasterStep g pe.1 pe.2) (fun _ _ => none)
        p1.y.toNat p1.x.toNat = _
    have hc1' : RainMap.contains
        { entities := [(p2, e2), (p1, e1)], height := h, width := w } p1 = true := hc1
    have hc2' : RainMap.contains
        { entities := [(p2, e2), (p1, e1)], height := h, width := w } p2 = true := hc2
    rw [show List.filter (fun pe => RainMap.contains
        { entities := [(p2, e2), (p1, e1)], height := h, width := w } pe.1)
        [(p2, e2), (p1, e1)] = [(p2, e2), (p1, e1)] by
      simp [List.filter_cons, hc1', hc2']]
    simp only [List.foldl_cons, List.foldl_nil]
    rw [rasterStep_same _ p1 p1 e1 rfl rfl, rasterStep_same _ p1 p2 e2 hx hy]
  refine ⟨hA, hB, fun hgt => ⟨?_, ?_⟩, fun heq => ?_⟩
  · rw [hA, if_pos hgt]
  · rw [hB, if_neg (by omega)]
  · rw [hA, if_neg (by omega)]

/-- C2 witness: at depths 5 > 3 the deeper glyph wins in both processing
orders, and at a 2 = 2 tie the later-processed glyph is shown. -/
theorem C2_depth_resolution_witness :
    (RainMap.rasterize
        { entities := [({ x := 1, y := 1, z := 5 },
            { c := '/', velocity := { x := 0, y := 1, z := 0 } }),
          ({ x := 1, y := 1, z := 3 },
            { c := '*', velocity := { x := 0, y := 1, z := 0 } })],
          height := 4, width := 4 } 1 1 = some (5, '/') ∧
      RainMap.rasterize
        { entities := [({ x := 1, y := 1, z := 3 },
            { c := '*', velocity := { x := 0, y := 1, z := 0 } }),
          ({ x := 1, y := 1, z := 5 },
            { c := '/', velocity := { x := 0, y := 1, z := 0 } })],
          height := 4, width := 4 } 1 1 = some (5, '/')) ∧
    RainMap.rasterize
      { entities := [({ x := 1, y := 1, z := 2 },
          { c := '/', velocity := { x := 0, y := 1, z := 0 } }),
        ({ x := 1, y := 1, z := 2 },
          { c := '*', velocity := { x := 0, y := 1, z := 0 } })],
        height := 4, width := 4 } 1 1 = some (2, '*') :=
  ⟨(C2_depth_resolution 4 4 { x := 1, y := 1, z := 5 } { x := 1, y := 1, z := 3 }
      { c := '/', velocity := { x := 0, y := 1, z := 0 } }
      { c := '*', velocity := { x := 0, y := 1, z := 0 } }
      rfl rfl (by decide)).2.2.1 (by decide),
    (C2_depth_resolution 4 4 { x := 1, y := 1, z := 2 } { x := 1, y := 1, z := 2 }
      { c := '/', velocity := { x := 0, y := 1, z := 0 } }
      { c := '*', velocity := { x := 0, y := 1, z := 0 } }
      rfl rfl (by decide)).2.2.2 rfl⟩
